import Mathlib

/-!
Shallow embedding of the benchmark execution and result-normalization
routines of `app.py` (functions `execute_cassandra_query`,
`execute_mongodb_benchmark_operation`, and the MongoDB benchmark result
display at lines 453-476), together with theorems settling the claims
about them.

Modelling conventions:
* Python floats for elapsed times are embedded as exact rationals `ℚ`.
* The external JSON library (`json.loads`) is embedded by its outcome:
  an input text is given to the executor as either a parsed `Json` value
  or a parse-error detail string (`JsonText`).
* The external database driver is embedded as an oracle (`MongoDriver`,
  `DriverResult`) describing what the single driver call would do: return
  materialized documents after consuming some wall-clock cost, or raise
  an exception after consuming some cost.
* A pandas `DataFrame` of documents is embedded as the list of its
  records; each record is an association list from field name to value.
* `st.error` / `st.warning` surfaces are embedded as the tagged error
  component of the result (`ErrKind`).
* The position of the `time.perf_counter()` reads relative to the other
  statements is made observable through an event trace recorded in
  source order (`Event`, `ExecResult.trace`).
-/

namespace App

/-- A JSON value, as produced by a successful call of the JSON parsing
library on a query-parameter text (`app.py` line 144). -/
inductive Json where
  | obj (fields : List (String × Json))
  | arr (items : List Json)
  | str (s : String)
  | num (n : Int)
  | bool (b : Bool)
  | null

/-- `isinstance(v, dict)` on a parsed JSON value. -/
def Json.isObj : Json → Bool
  | .obj _ => true
  | _ => false

/-- `isinstance(v, list)` on a parsed JSON value. -/
def Json.isArr : Json → Bool
  | .arr _ => true
  | _ => false

/-- Outcome of running the JSON parsing library on a parameter text:
either the parsed value or the parse-error detail carried by the raised
decode exception. -/
inductive JsonText where
  | valid (parsed : Json)
  | invalid (detail : String)

/-- A field value inside a document returned by the driver.  `objectId`
is the backend-specific unique-identifier type (`bson.ObjectId`); `nan`
stands for a missing entry materialized by pandas. -/
inductive Value where
  | objectId (hex : String)
  | str (s : String)
  | int (n : Int)
  | nan
deriving Repr, DecidableEq

/-- `isinstance(v, ObjectId)`. -/
def Value.isObjectId : Value → Bool
  | .objectId _ => true
  | _ => false

/-- Python `str(v)`, as applied by `df['_id'].astype(str)`. -/
def Value.pyStr : Value → String
  | .objectId h => h
  | .str s => s
  | .int n => toString n
  | .nan => "nan"

/-- One document of a result set: an association list from field name to
value (row of the pandas `DataFrame`). -/
abbrev Record := List (String × Value)

/-- Field access in a record (first entry with the given name). -/
def getField (r : Record) (f : String) : Option Value :=
  (r.find? (fun p => p.1 == f)).map (fun p => p.2)

/-- `'_id' in df.columns`: some record of the frame has an `_id` field. -/
def hasIdColumn (rows : List Record) : Bool :=
  rows.any (fun r => (getField r "_id").isSome)

/-- `df['_id'].iloc[0]`: the `_id` value of the first record, `nan` when
the frame is empty or the first record lacks the field. -/
def firstIdValue (rows : List Record) : Value :=
  match rows with
  | [] => .nan
  | r :: _ => (getField r "_id").getD .nan

/-- Effect of `df['_id'] = df['_id'].astype(str)` on one record: an
existing `_id` entry is replaced by its Python string form; a record
without the field receives the string pandas makes of its `NaN` cell. -/
def convertIdField (r : Record) : Record :=
  match getField r "_id" with
  | some _ => r.map (fun p => if p.1 == "_id" then (p.1, Value.str p.2.pyStr) else p)
  | none => r ++ [("_id", Value.str "nan")]

/-- `app.py` lines 163-167: the identifier-normalization step.  Only
when the frame is non-empty, has an `_id` column, and the FIRST record's
`_id` is an `ObjectId` is the `_id` column converted to strings;
otherwise the rows pass through unchanged. -/
def normalizeIdColumn (rows : List Record) : List Record :=
  if rows.isEmpty then rows
  else if hasIdColumn rows && (firstIdValue rows).isObjectId then
    rows.map convertIdField
  else rows

/-- The tagged failure surfaced to the caller (`st.error`/`st.warning`
message kinds, per the spec's error taxonomy). -/
inductive ErrKind where
  | connectionUnavailable
  | emptyStatement
  | malformedParameters (detail : String)
  | invalidParameterShape (expectedShape : String)
  | backendRejected (detail : String)
  | unsupportedOperation (opType : String)
deriving Repr, DecidableEq

/-- What the single underlying driver call does when invoked: return
fully materialized documents after consuming `cost` seconds, or raise a
backend fault after consuming `cost` seconds. -/
inductive DriverResult where
  | ok (docs : List Record) (cost : ℚ)
  | raises (detail : String) (cost : ℚ)
deriving Repr, DecidableEq

/-- What `collection.count_documents(filter)` does when invoked. -/
inductive CountResult where
  | ok (count : Nat) (cost : ℚ)
  | raises (detail : String) (cost : ℚ)
deriving Repr, DecidableEq

/-- Oracle for the document-store driver: the behaviour of each per-kind
driver call the executor may dispatch to. -/
structure MongoDriver where
  findResult : DriverResult
  aggregateResult : DriverResult
  countResult : CountResult
deriving Repr, DecidableEq

/-- Observable steps of one executor invocation, in source order. -/
inductive Event where
  | jsonParse
  | timerStart
  | shapeCheck
  | driverCall
  | timerEnd
deriving Repr, DecidableEq

/-- Result of one executor invocation: the tagged error (if any), the
returned `DataFrame` rows, the returned elapsed seconds, the number of
driver calls actually issued, and the event trace. -/
structure ExecResult where
  error : Option ErrKind
  rows : List Record
  elapsed : ℚ
  driverCalls : Nat
  trace : List Event
deriving Repr, DecidableEq

/-- `app.py` lines 122-136, `execute_cassandra_query`.  The session is
`none` when the connection failed; `driver` is what the
`session.execute(cql_query)` call would do, with `cost` the time that
call consumes (the rows are turned into a `DataFrame` only after the
second `perf_counter` read, so that step is outside the measured
duration).
The Python guard `not cql_query or not cql_query.strip()` holds exactly
when every character of the statement is whitespace (vacuously for the
empty string), which is how it is embedded here. -/
def execute_cassandra_query (session : Option Unit) (cql_query : String)
    (driver : DriverResult) : ExecResult :=
  match session with
  | none => ⟨some .connectionUnavailable, [], 0, 0, []⟩
  | some _ =>
    if cql_query.data.all Char.isWhitespace then
      ⟨some .emptyStatement, [], 0, 0, []⟩
    else
      match driver with
      | .ok rows c => ⟨none, rows, c, 1, [.timerStart, .driverCall, .timerEnd]⟩
      | .raises d _ => ⟨some (.backendRejected d), [], 0, 1, [.timerStart, .driverCall]⟩

/-- `app.py` lines 138-176, `execute_mongodb_benchmark_operation`.
`db_connection` is `none` when the client is unavailable;
`query_params` is the outcome of `json.loads(query_params_str)`;
`shapeCost` is the wall-clock cost of the `isinstance` shape check that
the source performs after `start_time` is read; `driver` is the oracle
for the per-kind driver call.  Statement order of the source is
reproduced in the event trace: JSON parsing precedes `timerStart`, the
shape check and the driver call follow it. -/
def execute_mongodb_benchmark_operation (db_connection : Option Unit)
    (_collection_name operation_type : String) (query_params : JsonText)
    (shapeCost : ℚ) (driver : MongoDriver) : ExecResult :=
  match db_connection with
  | none => ⟨some .connectionUnavailable, [], 0, 0, []⟩
  | some _ =>
    match query_params with
    | .invalid e =>
        ⟨some (.malformedParameters e), [], 0, 0, [.jsonParse]⟩
    | .valid params =>
      if operation_type == "Find" then
        if !params.isObj then
          ⟨some (.invalidParameterShape "Filter for Find must be a JSON object."),
            [], 0, 0, [.jsonParse, .timerStart, .shapeCheck]⟩
        else
          match driver.findResult with
          | .ok docs c =>
              ⟨none, normalizeIdColumn docs, shapeCost + c, 1,
                [.jsonParse, .timerStart, .shapeCheck, .driverCall, .timerEnd]⟩
          | .raises d _ =>
              ⟨some (.backendRejected d), [], 0, 1,
                [.jsonParse, .timerStart, .shapeCheck, .driverCall]⟩
      else if operation_type == "Aggregate" then
        if !params.isArr then
          ⟨some (.invalidParameterShape "Pipeline for Aggregate must be a JSON array."),
            [], 0, 0, [.jsonParse, .timerStart, .shapeCheck]⟩
        else
          match driver.aggregateResult with
          | .ok docs c =>
              ⟨none, normalizeIdColumn docs, shapeCost + c, 1,
                [.jsonParse, .timerStart, .shapeCheck, .driverCall, .timerEnd]⟩
          | .raises d _ =>
              ⟨some (.backendRejected d), [], 0, 1,
                [.jsonParse, .timerStart, .shapeCheck, .driverCall]⟩
      else if operation_type == "Count Documents" then
        if !params.isObj then
          ⟨some (.invalidParameterShape "Filter for Count Documents must be a JSON object."),
            [], 0, 0, [.jsonParse, .timerStart, .shapeCheck]⟩
        else
          match driver.countResult with
          | .ok n c =>
              ⟨none, normalizeIdColumn [[("count", Value.int n)]], shapeCost + c, 1,
                [.jsonParse, .timerStart, .shapeCheck, .driverCall, .timerEnd]⟩
          | .raises d _ =>
              ⟨some (.backendRejected d), [], 0, 1,
                [.jsonParse, .timerStart, .shapeCheck, .driverCall]⟩
      else
        ⟨some (.unsupportedOperation operation_type), [], 0, 0,
          [.jsonParse, .timerStart]⟩

/-- `app.py` line 457: the metric shown for the non-indexed MongoDB run. -/
def mongo_bm_non_time_metric (measured : ℚ) : ℚ := 0.05 + measured

/-- `app.py` line 465: the metric shown for the indexed MongoDB run. -/
def mongo_bm_idx_time_metric (measured : ℚ) : ℚ := measured

/-- `app.py` lines 472-474: the two bars of the comparison chart. -/
def mongo_bm_chart_data (nonTime idxTime : ℚ) : List ℚ :=
  [nonTime + 0.05, idxTime]

/-- `true` iff whenever both events occur in the trace, the first
occurrence of `a` precedes the first occurrence of `b`. -/
def eventsInOrder (a b : Event) (tr : List Event) : Bool :=
  match tr.findIdx? (fun e => e == a), tr.findIdx? (fun e => e == b) with
  | some i, some j => decide (i < j)
  | _, _ => true

/-- `true` iff no field of any record carries the backend-specific
identifier type. -/
def noBackendIdValues (rows : List Record) : Bool :=
  rows.all (fun r => r.all (fun p => !p.2.isObjectId))

/-- `true` iff no record carries an `ObjectId` in its `_id` field. -/
def allIdFieldsString (rows : List Record) : Bool :=
  rows.all (fun r => r.all (fun p => !(p.1 == "_id" && p.2.isObjectId)))

/-- C1: the elapsed time shown for the non-indexed MongoDB run and the
value placed in the comparison chart both equal the measured time plus a
constant 0.05 seconds, while the indexed run's displayed time equals its
raw measured time; hence every displayed comparison is biased by exactly
0.05 s against the non-indexed variant. -/
theorem mongo_display_constant_bias (tn ti : ℚ) :
    mongo_bm_non_time_metric tn = tn + 0.05 ∧
    mongo_bm_idx_time_metric ti = ti ∧
    mongo_bm_chart_data tn ti = [tn + 0.05, ti] ∧
    (mongo_bm_non_time_metric tn - mongo_bm_idx_time_metric ti) - (tn - ti) = 0.05 := by
  refine ⟨by unfold mongo_bm_non_time_metric; ring, rfl, rfl, ?_⟩
  unfold mongo_bm_non_time_metric mongo_bm_idx_time_metric
  ring

/-- C4: with an absent backend handle, both executors return the
`connectionUnavailable` failure with zero elapsed time, no driver call,
and an empty event trace (no timing started). -/
theorem absent_handle_connection_unavailable
    (coll op : String) (params : JsonText) (sc : ℚ) (driver : MongoDriver)
    (cql : String) (cdriver : DriverResult) :
    execute_mongodb_benchmark_operation none coll op params sc driver =
      ⟨some .connectionUnavailable, [], 0, 0, []⟩ ∧
    execute_cassandra_query none cql cdriver =
      ⟨some .connectionUnavailable, [], 0, 0, []⟩ :=
  ⟨rfl, rfl⟩

/-- C5: a filter that parses to a JSON array for `Find` or
`Count Documents`, or a pipeline that parses to a JSON object for
`Aggregate`, yields the `invalidParameterShape` failure naming the
expected shape, with no driver call and no rows. -/
theorem wrong_shape_invalid_parameter_shape
    (coll : String) (sc : ℚ) (driver : MongoDriver)
    (items : List Json) (fields : List (String × Json)) :
    execute_mongodb_benchmark_operation (some ()) coll "Find"
        (.valid (.arr items)) sc driver =
      ⟨some (.invalidParameterShape "Filter for Find must be a JSON object."),
        [], 0, 0, [.jsonParse, .timerStart, .shapeCheck]⟩ ∧
    execute_mongodb_benchmark_operation (some ()) coll "Count Documents"
        (.valid (.arr items)) sc driver =
      ⟨some (.invalidParameterShape "Filter for Count Documents must be a JSON object."),
        [], 0, 0, [.jsonParse, .timerStart, .shapeCheck]⟩ ∧
    execute_mongodb_benchmark_operation (some ()) coll "Aggregate"
        (.valid (.obj fields)) sc driver =
      ⟨some (.invalidParameterShape "Pipeline for Aggregate must be a JSON array."),
        [], 0, 0, [.jsonParse, .timerStart, .shapeCheck]⟩ := by
  refine ⟨?_, ?_, ?_⟩ <;>
    simp [execute_mongodb_benchmark_operation, Json.isObj, Json.isArr]

/-- C6: when the parameter text does not parse as JSON, the executor
returns the `malformedParameters` failure carrying the parse error
detail, with no rows, zero elapsed time and no driver call, for every
operation kind. -/
theorem malformed_parameters_tagged (coll op : String) (e : String)
    (sc : ℚ) (driver : MongoDriver) :
    execute_mongodb_benchmark_operation (some ()) coll op (.invalid e) sc driver =
      ⟨some (.malformedParameters e), [], 0, 0, [.jsonParse]⟩ :=
  rfl

/-- C7: a successful `Count Documents` execution returns exactly one
synthetic record of the form `count ↦ n` with `n` the driver's count, a
non-negative integer. -/
theorem count_documents_single_record
    (coll : String) (fields : List (String × Json)) (sc : ℚ)
    (dFind dAgg : DriverResult) (n : Nat) (c : ℚ) :
    (execute_mongodb_benchmark_operation (some ()) coll "Count Documents"
        (.valid (.obj fields)) sc ⟨dFind, dAgg, .ok n c⟩).error = none ∧
    (execute_mongodb_benchmark_operation (some ()) coll "Count Documents"
        (.valid (.obj fields)) sc ⟨dFind, dAgg, .ok n c⟩).rows =
      [[("count", Value.int n)]] ∧
    (0 : Int) ≤ (n : Int) := by
  refine ⟨?_, ?_, Int.ofNat_nonneg n⟩ <;>
    simp [execute_mongodb_benchmark_operation, Json.isObj,
      normalizeIdColumn, hasIdColumn, getField]

/-- C8: a raw statement that is empty or consists only of whitespace
fails with the `emptyStatement` failure before any timing starts: zero
elapsed time, no driver call, empty event trace, with the handle
available. -/
theorem empty_statement_before_timing (cql : String) (driver : DriverResult)
    (h : cql.data.all Char.isWhitespace = true) :
    execute_cassandra_query (some ()) cql driver =
      ⟨some .emptyStatement, [], 0, 0, []⟩ := by
  simp [execute_cassandra_query, h]

/-- Witness for C8 at the whitespace-only statement `"   "`. -/
theorem empty_statement_before_timing_witness :
    ("   " : String).data.all Char.isWhitespace = true ∧
    execute_cassandra_query (some ()) "   " (.ok [[("x", Value.int 1)]] 5) =
      ⟨some .emptyStatement, [], 0, 0, []⟩ :=
  ⟨by decide,
   empty_statement_before_timing "   " (.ok [[("x", Value.int 1)]] 5) (by decide)⟩

/-- C9: every invocation of either executor returns either a success or
a tagged failure with no partial rows (on any failure the returned rows
are empty), and an operation kind outside the enumerated set yields the
`unsupportedOperation` failure. -/
theorem executor_all_or_nothing
    (conn : Option Unit) (coll op : String) (params : JsonText) (sc : ℚ)
    (driver : MongoDriver) (sess : Option Unit) (cql : String)
    (cdriver : DriverResult) (coll2 op2 : String) (params2 : Json)
    (sc2 : ℚ) (driver2 : MongoDriver)
    (h1 : (op2 == "Find") = false) (h2 : (op2 == "Aggregate") = false)
    (h3 : (op2 == "Count Documents") = false) :
    ((execute_mongodb_benchmark_operation conn coll op params sc driver).error = none ∨
      (execute_mongodb_benchmark_operation conn coll op params sc driver).rows = []) ∧
    ((execute_cassandra_query sess cql cdriver).error = none ∨
      (execute_cassandra_query sess cql cdriver).rows = []) ∧
    (execute_mongodb_benchmark_operation (some ()) coll2 op2
        (.valid params2) sc2 driver2).error =
      some (.unsupportedOperation op2) := by
  obtain ⟨fr, ar, cr⟩ := driver
  refine ⟨?_, ?_, ?_⟩
  · cases conn with
    | none => exact Or.inr rfl
    | some u =>
      cases params with
      | invalid e => exact Or.inr rfl
      | valid p =>
        cases p <;> cases fr <;> cases ar <;> cases cr <;>
          simp [execute_mongodb_benchmark_operation, Json.isObj, Json.isArr] <;>
          (try split_ifs) <;> (try simp_all)
  · cases sess with
    | none => exact Or.inr rfl
    | some u =>
      unfold execute_cassandra_query
      cases cdriver <;> split_ifs <;> simp
  · simp [execute_mongodb_benchmark_operation, h1, h2, h3]

/-- Witness for C9 with the unsupported operation kind
`"Drop Collection"`. -/
theorem executor_all_or_nothing_witness :
    ((execute_mongodb_benchmark_operation (some ()) "karyawan" "Find"
        (.valid (.obj [])) 0 ⟨.ok [] 0, .ok [] 0, .ok 0 0⟩).error = none ∨
      (execute_mongodb_benchmark_operation (some ()) "karyawan" "Find"
        (.valid (.obj [])) 0 ⟨.ok [] 0, .ok [] 0, .ok 0 0⟩).rows = []) ∧
    ((execute_cassandra_query (some ()) "SELECT 1" (.ok [] 2)).error = none ∨
      (execute_cassandra_query (some ()) "SELECT 1" (.ok [] 2)).rows = []) ∧
    (execute_mongodb_benchmark_operation (some ()) "karyawan" "Drop Collection"
        (.valid (.obj [])) 0 ⟨.ok [] 0, .ok [] 0, .ok 0 0⟩).error =
      some (.unsupportedOperation "Drop Collection") :=
  executor_all_or_nothing (some ()) "karyawan" "Find" (.valid (.obj [])) 0
    ⟨.ok [] 0, .ok [] 0, .ok 0 0⟩ (some ()) "SELECT 1" (.ok [] 2)
    "karyawan" "Drop Collection" (.obj []) 0 ⟨.ok [] 0, .ok [] 0, .ok 0 0⟩
    (by decide) (by decide) (by decide)

/-- C10: on every failure path of either executor the returned elapsed
time is exactly 0, even when the driver call consumed real time before
raising. -/
theorem failure_elapsed_zero
    (conn : Option Unit) (coll op : String) (params : JsonText) (sc : ℚ)
    (driver : MongoDriver) (k : ErrKind)
    (sess : Option Unit) (cql : String) (cdriver : DriverResult) (k2 : ErrKind) :
    ((execute_mongodb_benchmark_operation conn coll op params sc driver).error = some k →
      (execute_mongodb_benchmark_operation conn coll op params sc driver).elapsed = 0) ∧
    ((execute_cassandra_query sess cql cdriver).error = some k2 →
      (execute_cassandra_query sess cql cdriver).elapsed = 0) := by
  obtain ⟨fr, ar, cr⟩ := driver
  constructor
  · cases conn with
    | none => intro _; rfl
    | some u =>
      cases params with
      | invalid e => intro _; rfl
      | valid p =>
        cases p <;> cases fr <;> cases ar <;> cases cr <;>
          simp [execute_mongodb_benchmark_operation, Json.isObj, Json.isArr] <;>
          (try split_ifs) <;> (try simp_all)
  · cases sess with
    | none => intro _; rfl
    | some u =>
      unfold execute_cassandra_query
      cases cdriver <;> split_ifs <;> simp

/-- Witness for C10: a driver call that consumed 7 s (MongoDB) and 3 s
(Cassandra) before raising still yields elapsed time 0. -/
theorem failure_elapsed_zero_witness :
    (execute_mongodb_benchmark_operation (some ()) "karyawan" "Find"
      (.valid (.obj [])) 0 ⟨.raises "boom" 7, .ok [] 0, .ok 0 0⟩).elapsed = 0 ∧
    (execute_cassandra_query (some ()) "SELECT * FROM transaksi_harian"
      (.raises "timeout" 3)).elapsed = 0 :=
  ⟨(failure_elapsed_zero (some ()) "karyawan" "Find" (.valid (.obj [])) 0
      ⟨.raises "boom" 7, .ok [] 0, .ok 0 0⟩ (.backendRejected "boom")
      (some ()) "SELECT * FROM transaksi_harian" (.raises "timeout" 3)
      (.backendRejected "timeout")).1 (by decide),
   (failure_elapsed_zero (some ()) "karyawan" "Find" (.valid (.obj [])) 0
      ⟨.raises "boom" 7, .ok [] 0, .ok 0 0⟩ (.backendRejected "boom")
      (some ()) "SELECT * FROM transaksi_harian" (.raises "timeout" 3)
      (.backendRejected "timeout")).2 (by decide)⟩

/-- C2 counterexample: on a well-formed `Find` execution, the shape
check event occurs after — not before — the start-timestamp event,
refuting the claim that all validation completes before the monotonic
start timestamp is recorded. -/
theorem validation_before_timer_refuted :
    eventsInOrder .shapeCheck .timerStart
      (execute_mongodb_benchmark_operation (some ()) "karyawan" "Find"
        (.valid (.obj [])) 0 ⟨.ok [] 0, .ok [] 0, .ok 0 0⟩).trace = false := by
  decide

set_option maxHeartbeats 2000000 in
/-- C2 amended: JSON parsing of the parameter text does complete before
the start timestamp is recorded, but the per-kind shape check runs after
the start timestamp, inside the timed region, so on a successful run the
returned elapsed time is the shape-check cost plus the driver-call cost,
not the driver-call cost alone. -/
theorem mongo_validation_timer_order
    (conn : Option Unit) (coll op : String) (params : JsonText) (sc : ℚ)
    (driver : MongoDriver) (coll2 : String) (fields : List (String × Json))
    (docs : List Record) (c sc2 : ℚ) (dAgg : DriverResult) (dCount : CountResult) :
    eventsInOrder .jsonParse .timerStart
      (execute_mongodb_benchmark_operation conn coll op params sc driver).trace = true ∧
    eventsInOrder .timerStart .shapeCheck
      (execute_mongodb_benchmark_operation conn coll op params sc driver).trace = true ∧
    (execute_mongodb_benchmark_operation (some ()) coll2 "Find"
      (.valid (.obj fields)) sc2 ⟨.ok docs c, dAgg, dCount⟩).elapsed = sc2 + c := by
  obtain ⟨fr, ar, cr⟩ := driver
  refine ⟨?_, ?_, ?_⟩
  · cases conn with
    | none => rfl
    | some u =>
      cases params with
      | invalid e => rfl
      | valid p =>
        cases p <;> cases fr <;> cases ar <;> cases cr <;>
          simp only [execute_mongodb_benchmark_operation, Json.isObj, Json.isArr,
            Bool.not_true, Bool.not_false] <;>
          (try split_ifs) <;> rfl
  · cases conn with
    | none => rfl
    | some u =>
      cases params with
      | invalid e => rfl
      | valid p =>
        cases p <;> cases fr <;> cases ar <;> cases cr <;>
          simp only [execute_mongodb_benchmark_operation, Json.isObj, Json.isArr,
            Bool.not_true, Bool.not_false] <;>
          (try split_ifs) <;> rfl
  · simp [execute_mongodb_benchmark_operation, Json.isObj]

/-- C3 counterexample: a successful `Find` whose driver documents carry
a plain-string `_id` in the first record and an `ObjectId` `_id` in the
second is returned with the `ObjectId` unconverted, so the display layer
does receive a backend-specific identifier type. -/
theorem id_normalization_total_refuted :
    (execute_mongodb_benchmark_operation (some ()) "karyawan" "Find"
        (.valid (.obj [])) 0
        ⟨.ok [[("_id", .str "new_doc_1")], [("_id", .objectId "665f1c2ab9")]] 0,
          .ok [] 0, .ok 0 0⟩).error = none ∧
    noBackendIdValues
      (execute_mongodb_benchmark_operation (some ()) "karyawan" "Find"
        (.valid (.obj [])) 0
        ⟨.ok [[("_id", .str "new_doc_1")], [("_id", .objectId "665f1c2ab9")]] 0,
          .ok [] 0, .ok 0 0⟩).rows = false := by
  decide

/-- Every record produced by `convertIdField` is free of `ObjectId`
values in its `_id` field. -/
theorem convertIdField_no_objectId_id (r : Record) :
    (convertIdField r).all (fun p => !(p.1 == "_id" && p.2.isObjectId)) = true := by
  unfold convertIdField
  cases hid : getField r "_id" with
  | some v =>
    apply List.all_eq_true.mpr
    intro p hp
    obtain ⟨q, hq, hfq⟩ := List.mem_map.mp hp
    subst hfq
    by_cases hk : (q.1 == "_id") = true
    · simp [hk, Value.isObjectId]
    · simp only [Bool.not_eq_true] at hk
      simp [hk]
  | none =>
    have hfind : r.find? (fun p => p.1 == "_id") = none := by
      unfold getField at hid
      exact Option.map_eq_none'.mp hid
    rw [List.all_append]
    have hr : r.all (fun p => !(p.1 == "_id" && p.2.isObjectId)) = true := by
      apply List.all_eq_true.mpr
      intro p hp
      have := List.find?_eq_none.mp hfind p hp
      simp only [Bool.not_eq_true] at this ⊢
      simp [this]
    rw [hr]
    decide

/-- C3 amended: identifier normalization is conditional, not total: it
applies only to the `_id` field, and only when the first record's `_id`
is an `ObjectId`; in that case every record's `_id` entry becomes a
string, and otherwise the rows pass through entirely unchanged (an
`ObjectId` in a later record, or in a field other than `_id`, is never
converted). -/
theorem id_normalization_conditional (docs : List Record) :
    ((firstIdValue docs).isObjectId = true →
      allIdFieldsString (normalizeIdColumn docs) = true) ∧
    ((firstIdValue docs).isObjectId = false →
      normalizeIdColumn docs = docs) := by
  constructor
  · intro h
    cases docs with
    | nil => simp [firstIdValue, Value.isObjectId] at h
    | cons r rest =>
      have hid : ∃ v, getField r "_id" = some v ∧ v.isObjectId = true := by
        cases hg : getField r "_id" with
        | none => rw [firstIdValue, hg] at h; simp [Value.isObjectId] at h
        | some v => exact ⟨v, rfl, by rw [firstIdValue, hg] at h; exact h⟩
      obtain ⟨v, hg, hv⟩ := hid
      have hcol : hasIdColumn (r :: rest) = true := by
        simp [hasIdColumn, hg]
      rw [normalizeIdColumn]
      simp only [List.isEmpty_cons, hcol, h, Bool.and_self, if_true,
        Bool.false_eq_true, if_false]
      unfold allIdFieldsString
      apply List.all_eq_true.mpr
      intro rec hrec
      obtain ⟨q, hq, hfq⟩ := List.mem_map.mp hrec
      subst hfq
      exact convertIdField_no_objectId_id q
  · intro h
    rw [normalizeIdColumn]
    split_ifs with h1 h2
    · rfl
    · simp [h] at h2
    · rfl

/-- Witness for C3 amended: a frame whose first `_id` is an `ObjectId`
has every `_id` converted to a string. -/
theorem id_normalization_conditional_witness :
    allIdFieldsString (normalizeIdColumn
      [[("_id", Value.objectId "665f1c2ab9"), ("nama", Value.str "A")],
       [("_id", Value.objectId "665f1c2ac0")]]) = true :=
  (id_normalization_conditional
    [[("_id", Value.objectId "665f1c2ab9"), ("nama", Value.str "A")],
     [("_id", Value.objectId "665f1c2ac0")]]).1 (by decide)

end App
